import Mathlib

/-!
Shallow embedding of the decision-computation pipeline of `src/app.py`
(the single-ETF trading-decision dashboard).

Python floats are modelled as exact rationals (`ℚ`); a pandas `NaN`
(produced by `rolling(window=20).mean()` on the first 19 bars and read
back through `float(...)`) is modelled as `none : Option ℚ`, with the
float comparison semantics `NaN > x = False` captured by `fGt`.
`f"{x:.Nf}"` formatting is modelled by `formatFixed` (round half to even
on the exact rational).  `datetime.now().strftime(...)` is made an
explicit input `nowStr`.  An unhandled Python exception (such as the
`IndexError` that `hist_df.iloc[1]` raises on a one-row frame) is
modelled as `none` in the `Option` result of `calculate_analysis`,
while the handled "empty report" paths return `some []` exactly as the
source returns an empty `DataFrame`.
-/

/-- One row of the weekly K-line frame produced by `get_kline_data`:
a calendar date string, the closing price `收盘`, and the rolling
20-week mean `M20` (`none` when pandas holds `NaN` there). -/
structure HistRow where
  date : String
  close : ℚ
  m20 : Option ℚ
deriving DecidableEq, Repr, Inhabited

/-- One verdict record: the dict appended to `rows` in
`calculate_analysis`, field for field. -/
structure VRow where
  rtype : String
  time : String
  premium : String
  price : ℚ
  m20s : String
  above : String
  m20up : String
  profit : String
  vsM20 : String
  verdict : String
  reason : String
  is_buy : Bool
deriving DecidableEq, Repr, Inhabited

/-- Python truthiness of an optional float (`if h_m20:`): `None` and
`0.0` are falsy, every other value is truthy. -/
def truthyQ : Option ℚ → Bool
  | none => false
  | some x => decide (x ≠ 0)

/-- Float comparison `a > b` where either side may be `NaN` (`none`):
any comparison with `NaN` is `False`, as in IEEE/Python. -/
def fGt : Option ℚ → Option ℚ → Bool
  | some x, some y => decide (y < x)
  | _, _ => false

/-- Floor of a rational as an integer (`q.num` floor-divided by `q.den`). -/
def rfloor (q : ℚ) : ℤ := Int.fdiv q.num (q.den : ℤ)

/-- Round a rational to the nearest integer, ties to even — the rounding
used by Python's fixed-point `format` on exact values. -/
def roundHalfEven (q : ℚ) : ℤ :=
  if q - (rfloor q : ℚ) < 1/2 then rfloor q
  else if (1:ℚ)/2 < q - (rfloor q : ℚ) then rfloor q + 1
  else if rfloor q % 2 = 0 then rfloor q else rfloor q + 1

/-- Left-pad a digit string with zeros to width `w`. -/
def padZeros (s : String) (w : Nat) : String :=
  if s.length < w then String.mk (List.replicate (w - s.length) '0') ++ s else s

/-- `f"{q:.df}"` on an exact rational: round `q * 10^d` half-to-even and
print with `d` fractional digits. -/
def formatFixed (d : Nat) (q : ℚ) : String :=
  (if roundHalfEven (q * (10:ℚ)^d) < 0 then "-" else "")
    ++ toString ((roundHalfEven (q * (10:ℚ)^d)).natAbs / 10^d)
    ++ (if d = 0 then ""
        else "." ++ padZeros (toString ((roundHalfEven (q * (10:ℚ)^d)).natAbs % 10^d)) d)

/-- `f"{x:.df}"` where `x` may be `NaN`: Python renders `NaN` as `"nan"`. -/
def fmtF (d : Nat) : Option ℚ → String
  | some q => formatFixed d q
  | none => "nan"

/-- `str(row['日期']).split()[0]`: the characters before the first
space — the calendar-date part of a pandas `"YYYY-MM-DD"` or
`"YYYY-MM-DD HH:MM:SS"` timestamp (the data source never produces
leading whitespace or empty date strings). -/
def pyFirstToken (s : String) : String :=
  String.mk (s.data.takeWhile (fun c => c ≠ ' '))

/-- `get_realtime_data` (src/app.py lines 77-115), with the two network
reads made explicit inputs: returns `(price, premium, valuation)` where
the premium is computed only when both price and valuation are strictly
positive and otherwise stays at the sentinel `0.0`. -/
def get_realtime_data (price valuation : ℚ) : ℚ × ℚ × ℚ :=
  (price,
   if 0 < price ∧ 0 < valuation then (price - valuation) / valuation * 100 else 0,
   valuation)

/-- PremiumResolver contract as worded in the spec (§4.2):
`(price - referenceValue)/referenceValue*100` when the reference is
strictly positive, `unknown` (`none`) otherwise.  Kept separate from the
source-derived `h_premiumOf` so the two can be compared. -/
def resolve (price referenceValue : ℚ) : Option ℚ :=
  if 0 < referenceValue then some ((price - referenceValue) / referenceValue * 100) else none

/-- `h_premium_val` for historical row `i` (src/app.py lines 215-220):
exact NAV date match first (used only when the NAV is positive), else
the live-valuation fallback for `i == 0` only, else unknown. -/
def h_premiumOf (current_valuation : ℚ) (navMap : List (String × ℚ)) (i : Nat)
    (row : HistRow) : Option ℚ :=
  match navMap.lookup (pyFirstToken row.date) with
  | some nav => if 0 < nav then some ((row.close - nav) / nav * 100) else none
  | none =>
      if i = 0 ∧ 0 < current_valuation then
        some ((row.close - current_valuation) / current_valuation * 100)
      else none

/-- `h_premium_val is not None and h_premium_val >= 1.0` (line 235). -/
def premFailsOpt : Option ℚ → Bool
  | some v => decide (1 ≤ v)
  | none => false

/-- `cost > 0 and ((price - cost)/cost*100) <= -8.0` (lines 187, 238). -/
def drawdownFails (cost price : ℚ) : Bool :=
  decide (0 < cost) && decide ((price - cost) / cost * 100 ≤ -8)

/-- `h_m20_up` (lines 224-226): stays `False` unless `h_m20` is truthy
and the previous row's M20 is not `NaN`; then compares strictly. -/
def hist_m20_trending (h_m20 prevM20 : Option ℚ) : Bool :=
  if truthyQ h_m20 && prevM20.isSome then fGt h_m20 prevM20 else false

/-- `h_above_m20 = h_price > h_m20 if h_m20 else False` (line 228). -/
def hist_above_m20 (h_price : ℚ) (h_m20 : Option ℚ) : Bool :=
  if truthyQ h_m20 then fGt (some h_price) h_m20 else false

/-- The realtime premium failure reason `f"溢价高({current_premium:.2f}%)"`. -/
def rtPremiumReason (current_premium : ℚ) : String :=
  "溢价高(" ++ formatFixed 2 current_premium ++ "%)"

/-- The realtime `reasons` list (lines 182-187), in source order. -/
def realtimeReasons (cost current_price current_premium : ℚ)
    (latest_k_m20 prev_k_m20 : Option ℚ) : List String :=
  (if 1 ≤ current_premium then [rtPremiumReason current_premium] else [])
    ++ (if fGt (some current_price) latest_k_m20 then [] else ["低于M20"])
    ++ (if fGt latest_k_m20 prev_k_m20 then [] else ["M20未向上"])
    ++ (if drawdownFails cost current_price then ["亏损超8%"] else [])

/-- The historical `h_rsn` list (lines 233-238), in source order. -/
def histReasons (cost h_price : ℚ) (h_premium_val h_m20 prevM20 : Option ℚ) : List String :=
  (if premFailsOpt h_premium_val then ["溢价高"] else [])
    ++ (if hist_above_m20 h_price h_m20 then [] else ["低于M20"])
    ++ (if hist_m20_trending h_m20 prevM20 then [] else ["M20向下"])
    ++ (if drawdownFails cost h_price then ["亏损超8%"] else [])

/-- The realtime row dict (lines 172-202).  `latest_k_m20`/`prev_k_m20`
are `float(hist_df.iloc[0/1]['M20'])`, possibly `NaN`.  In the source
`can_buy` is set to `False` exactly when a reason is appended, so it
equals emptiness of the reasons list. -/
def realtimeRow (cost : ℚ) (nowStr : String) (current_price current_premium : ℚ)
    (latest_k_m20 prev_k_m20 : Option ℚ) : VRow :=
  { rtype := "realtime"
    time := nowStr ++ " (实时)"
    premium := formatFixed 3 current_premium ++ "%"
    price := current_price
    m20s := fmtF 3 latest_k_m20
    above := if fGt (some current_price) latest_k_m20 then "是" else "否"
    m20up := if fGt latest_k_m20 prev_k_m20 then "是" else "否"
    profit := if 0 < cost then formatFixed 2 ((current_price - cost) / cost * 100) ++ "%" else "-"
    vsM20 := if 0 < cost then fmtF 2 (latest_k_m20.map (fun m => (m - cost) / cost * 100)) ++ "%" else "-"
    verdict := if (realtimeReasons cost current_price current_premium latest_k_m20 prev_k_m20).isEmpty
               then "符合条件" else "不符合"
    reason := if (realtimeReasons cost current_price current_premium latest_k_m20 prev_k_m20).isEmpty
              then "" else String.intercalate "，" (realtimeReasons cost current_price current_premium latest_k_m20 prev_k_m20)
    is_buy := (realtimeReasons cost current_price current_premium latest_k_m20 prev_k_m20).isEmpty }

/-- One historical row dict (lines 205-253) for loop index `i`, given the
bar at `i` and the bar at `i+1`. -/
def histRow (cost current_valuation : ℚ) (navMap : List (String × ℚ)) (i : Nat)
    (row prev_row : HistRow) : VRow :=
  { rtype := "history"
    time := pyFirstToken row.date
    premium := match h_premiumOf current_valuation navMap i row with
               | some v => formatFixed 3 v ++ "%"
               | none => "--"
    price := row.close
    m20s := if truthyQ row.m20 then formatFixed 3 (row.m20.getD 0) else "-"
    above := if hist_above_m20 row.close row.m20 then "是" else "否"
    m20up := if hist_m20_trending row.m20 prev_row.m20 then "是" else "否"
    profit := if 0 < cost then formatFixed 2 ((row.close - cost) / cost * 100) ++ "%" else "-"
    vsM20 := if decide (0 < cost) && truthyQ row.m20
             then formatFixed 2 ((row.m20.getD 0 - cost) / cost * 100) ++ "%" else "-"
    verdict := if (histReasons cost row.close (h_premiumOf current_valuation navMap i row) row.m20 prev_row.m20).isEmpty
               then "符合" else "不符合"
    reason := if (histReasons cost row.close (h_premiumOf current_valuation navMap i row) row.m20 prev_row.m20).isEmpty
              then "" else String.intercalate "，" (histReasons cost row.close (h_premiumOf current_valuation navMap i row) row.m20 prev_row.m20)
    is_buy := (histReasons cost row.close (h_premiumOf current_valuation navMap i row) row.m20 prev_row.m20).isEmpty }

/-- `calculate_analysis(cost, qty)` (lines 145-255), with the fetched
data as explicit inputs: the raw realtime price and valuation, the
weekly frame `hist` (most recent first, as `get_kline_data` sorts it),
and the NAV lookup table.  `some []` models the two handled empty-report
returns; `none` models the uncaught `IndexError` that
`hist_df.iloc[1]` raises when the frame has a single row; otherwise the
realtime row is followed by the historical rows of the
`for i in range(51)` loop, which breaks at `i >= len(hist_df) - 1`. -/
def calculate_analysis (cost qty : ℚ) (nowStr : String) (price valuation : ℚ)
    (hist : List HistRow) (navMap : List (String × ℚ)) : Option (List VRow) :=
  if (get_realtime_data price valuation).1 = 0 then some []
  else if hist.length = 0 then some []
  else if hist.length < 2 then none
  else some
    (realtimeRow cost nowStr (get_realtime_data price valuation).1
        (get_realtime_data price valuation).2.1
        (hist.getD 0 default).m20 (hist.getD 1 default).m20
      :: (List.range (min 51 (hist.length - 1))).map
          (fun i => histRow cost (get_realtime_data price valuation).2.2 navMap i
            (hist.getD i default) (hist.getD (i + 1) default)))

/-- Erase the wall-clock-dependent label of the realtime row, leaving
every other field and every historical row untouched. -/
def stripRtLabel (r : VRow) : VRow :=
  if r.rtype = "realtime" then { r with time := "" } else r

/-! ### Concrete fixtures used by witnesses and counterexamples -/

/-- A two-bar weekly frame (most recent first), M20 still `NaN`. -/
def histW : List HistRow :=
  [{ date := "2024-01-12", close := 2, m20 := none },
   { date := "2024-01-05", close := 1, m20 := none }]

/-- A 53-bar weekly frame (dates distinct, most recent first). -/
def histC1 : List HistRow :=
  (List.range 53).map (fun j => { date := "d" ++ toString j, close := 1, m20 := none })

/-- A single bar, as `get_kline_data` would deliver for a 1-week history. -/
def barOne : HistRow := { date := "2024-01-05", close := 1, m20 := none }

/-! ### Claims -/

/-- C10: the decision pipeline produces identical verdict records for
any two quantity values — `calculate_analysis` accepts `qty` but never
reads it, so no output field depends on it. -/
theorem C10_quantity_irrelevant (cost qty1 qty2 price valuation : ℚ) (nowStr : String)
    (hist : List HistRow) (navMap : List (String × ℚ)) :
    calculate_analysis cost qty1 nowStr price valuation hist navMap
      = calculate_analysis cost qty2 nowStr price valuation hist navMap := rfl

/-- C7: with a non-empty historical series of exactly one bar and a
nonzero live price, the pipeline hits the unguarded
`hist_df.iloc[1]` (line 174) and raises an unhandled `IndexError`
(modelled as `none`) instead of degrading gracefully — the code bug the
claim's spec sentences rule out. -/
theorem C7_single_bar_crash (cost qty price valuation : ℚ) (nowStr : String)
    (bar : HistRow) (navMap : List (String × ℚ)) (hp : price ≠ 0) :
    calculate_analysis cost qty nowStr price valuation [bar] navMap = none := by
  unfold calculate_analysis
  simp [get_realtime_data, hp]

/-- Witness for C7 at a concrete one-bar series. -/
theorem C7_single_bar_crash_witness :
    calculate_analysis 0 0 "t" 1 0 [barOne] [] = none :=
  C7_single_bar_crash 0 0 1 0 "t" barOne [] (by norm_num)

/-- C1 counterexample: on a 53-bar series the report has 52 records —
one realtime record plus 51 historical records (the loop is
`for i in range(51)`), exceeding the claimed bound of windowSize = 50
historical records. -/
theorem C1_counterexample :
    (calculate_analysis 0 0 "t" 1 0 histC1 []).map List.length = some 52
      ∧ ¬ (52 ≤ 1 + 50) := by
  constructor
  · with_unfolding_all rfl
  · decide

/-- C9 counterexample: two calls with identical quote, series, NAV
lookup and cost basis but different wall-clock readings produce
different verdict sequences (the realtime label embeds
`datetime.now()`), so the records are not byte-identical. -/
theorem C9_counterexample :
    calculate_analysis 0 0 "A" 1 0 histW [] ≠ calculate_analysis 0 0 "B" 1 0 histW [] := by
  with_unfolding_all decide

/-- C9 (amended): with the wall-clock reading held fixed the assembler
is a pure function of its inputs, and two calls that differ only in the
clock reading agree on every record and every field except the realtime
record's period label. -/
theorem C9_amended_deterministic_mod_clock (cost qty price valuation : ℚ) (n1 n2 : String)
    (hist : List HistRow) (navMap : List (String × ℚ)) :
    (calculate_analysis cost qty n1 price valuation hist navMap).map (List.map stripRtLabel)
      = (calculate_analysis cost qty n2 price valuation hist navMap).map (List.map stripRtLabel) := by
  unfold calculate_analysis
  split_ifs <;> simp [realtimeRow, stripRtLabel]

/-- C1 (amended): the report is the realtime record first, followed by
`min 51 (len - 1)` historical records — at most 51, because the loop is
`for i in range(51)` — one per index `i` while a previous bar at `i+1`
exists, each produced from bar `i` of the input frame in frame order
(most recent week first); full coverage of all 51 therefore needs at
least 52 bars. -/
theorem C1_amended_report_shape (cost qty price valuation : ℚ) (nowStr : String)
    (hist : List HistRow) (navMap : List (String × ℚ))
    (hp : price ≠ 0) (hn : 2 ≤ hist.length) :
    ∃ tl : List VRow,
      calculate_analysis cost qty nowStr price valuation hist navMap
        = some (realtimeRow cost nowStr price
            (get_realtime_data price valuation).2.1
            (hist.getD 0 default).m20 (hist.getD 1 default).m20 :: tl)
      ∧ tl.length = min 51 (hist.length - 1)
      ∧ ∀ j : Nat, ∀ h : j < tl.length,
          tl.get ⟨j, h⟩
              = histRow cost valuation navMap j (hist.getD j default) (hist.getD (j + 1) default)
            ∧ (tl.get ⟨j, h⟩).rtype = "history"
            ∧ (tl.get ⟨j, h⟩).time = pyFirstToken (hist.getD j default).date := by
  refine ⟨(List.range (min 51 (hist.length - 1))).map
      (fun i => histRow cost valuation navMap i (hist.getD i default) (hist.getD (i + 1) default)),
      ?_, ?_, ?_⟩
  · unfold calculate_analysis
    have h0 : ¬ hist.length = 0 := by omega
    have h2 : ¬ hist.length < 2 := by omega
    simp [get_realtime_data, hp, h0, h2]
  · simp
  · intro j h
    simp only [List.length_map, List.length_range] at h
    have hget : ((List.range (min 51 (hist.length - 1))).map
        (fun i => histRow cost valuation navMap i (hist.getD i default) (hist.getD (i + 1) default))).get
          ⟨j, by simpa using h⟩
        = histRow cost valuation navMap j (hist.getD j default) (hist.getD (j + 1) default) := by
      simp [List.get_eq_getElem]
    refine ⟨hget, ?_, ?_⟩
    · rw [hget]; rfl
    · rw [hget]; rfl

/-- Witness for C1 (amended) at a concrete two-bar frame. -/
theorem C1_amended_report_shape_witness :
    ∃ tl : List VRow,
      calculate_analysis 0 0 "w" 1 0 histW []
        = some (realtimeRow 0 "w" 1 (get_realtime_data 1 0).2.1
            (histW.getD 0 default).m20 (histW.getD 1 default).m20 :: tl)
      ∧ tl.length = min 51 (histW.length - 1)
      ∧ ∀ j : Nat, ∀ h : j < tl.length,
          tl.get ⟨j, h⟩ = histRow 0 0 [] j (histW.getD j default) (histW.getD (j + 1) default)
            ∧ (tl.get ⟨j, h⟩).rtype = "history"
            ∧ (tl.get ⟨j, h⟩).time = pyFirstToken (histW.getD j default).date :=
  C1_amended_report_shape 0 0 1 0 "w" histW [] (by norm_num) (by decide)

/-- C2 counterexample: with `unitCost = 100 > 0` but `quantity = 0`
(inactive per the claim) the realtime record's profit field is the
numeric `"0.00%"`, not the `"-"` placeholder the claim requires. -/
theorem C2_counterexample :
    (((calculate_analysis 100 0 "t" 100 0 histW []).getD []).headD default).profit = "0.00%"
      ∧ "0.00%" ≠ "-" := by
  constructor
  · with_unfolding_all rfl
  · decide

/-- C2 (amended): the cost basis is treated as active exactly when
`unitCost` is strictly positive — the quantity is ignored.  When
`unitCost ≤ 0`, every record of the report renders both profit fields
as the `"-"` placeholder (never a numeric 0); when `unitCost > 0` the
profit field is the formatted profit percentage for every record. -/
theorem C2_amended_profit_activation (cost qty price valuation : ℚ) (nowStr : String)
    (hist : List HistRow) (navMap : List (String × ℚ)) (r : VRow)
    (hmem : r ∈ (calculate_analysis cost qty nowStr price valuation hist navMap).getD []) :
    (cost ≤ 0 → r.profit = "-" ∧ r.vsM20 = "-")
      ∧ (0 < cost → r.profit = formatFixed 2 ((r.price - cost) / cost * 100) ++ "%") := by
  unfold calculate_analysis at hmem
  split_ifs at hmem with h0 h1 h2
  · simp at hmem
  · simp at hmem
  · simp at hmem
  · simp only [Option.getD_some, List.mem_cons, List.mem_map, List.mem_range] at hmem
    rcases hmem with rfl | ⟨i, hi, rfl⟩
    · constructor
      · intro hc
        have hnc : ¬ 0 < cost := not_lt.2 hc
        simp [realtimeRow, hnc]
      · intro hc
        simp [realtimeRow, hc]
    · constructor
      · intro hc
        have hnc : ¬ 0 < cost := not_lt.2 hc
        simp [histRow, hnc]
      · intro hc
        simp [histRow, hc]

/-- Witness for C2 (amended) at the realtime record of a concrete call
with an absent cost basis. -/
theorem C2_amended_profit_activation_witness :
    ((0:ℚ) ≤ 0 →
        (realtimeRow 0 "w" 1 0 none none).profit = "-"
          ∧ (realtimeRow 0 "w" 1 0 none none).vsM20 = "-")
      ∧ (0 < (0:ℚ) →
        (realtimeRow 0 "w" 1 0 none none).profit
          = formatFixed 2 (((realtimeRow 0 "w" 1 0 none none).price - 0) / 0 * 100) ++ "%") :=
  C2_amended_profit_activation 0 0 1 0 "w" histW []
    (realtimeRow 0 "w" 1 0 none none)
    (by
      unfold calculate_analysis
      rw [if_neg (by norm_num [get_realtime_data]), if_neg (by simp [histW]),
        if_neg (by simp [histW])]
      simp only [Option.getD_some, List.mem_cons]
      left
      norm_num [get_realtime_data, histW])

/-- Padding to width `w` never yields fewer than `w` characters. -/
theorem padZeros_length_ge (s : String) (w : Nat) : w ≤ (padZeros s w).length := by
  unfold padZeros
  split_ifs with h
  · have h1 : (String.mk (List.replicate (w - s.length) '0')).length = w - s.length := by
      show (List.replicate (w - s.length) '0').length = w - s.length
      simp
    rw [String.length_append, h1]
    omega
  · omega

/-- A 2-digit fixed-point rendering has at least 3 characters
(the dot and two fractional digits). -/
theorem formatFixed2_length_ge (q : ℚ) : 3 ≤ (formatFixed 2 q).length := by
  unfold formatFixed
  rw [if_neg (by norm_num : ¬ (2:Nat) = 0)]
  have hp := padZeros_length_ge (toString ((roundHalfEven (q * (10:ℚ)^2)).natAbs % 10^2)) 2
  rw [String.length_append, String.length_append, String.length_append]
  have hdot : ("." : String).length = 1 := rfl
  rw [hdot]
  omega

/-- The realtime premium reason is at least 9 characters long, so it can
never coincide with any of the other (at most 6-character) reasons. -/
theorem rtPremiumReason_length_ge (q : ℚ) : 9 ≤ (rtPremiumReason q).length := by
  unfold rtPremiumReason
  have h := formatFixed2_length_ge q
  rw [String.length_append, String.length_append]
  have h1 : ("溢价高(" : String).length = 4 := rfl
  have h2 : ("%)" : String).length = 2 := rfl
  rw [h1, h2]
  omega

/-- C3: in every period the premium rule contributes its failure reason
exactly when the period's premium is known and at least 1.0; an unknown
premium never fails the rule.  (The realtime premium is always a known
number — the sentinel 0 when data is missing — and its reason string
`溢价高(x.xx%)` mentions the premium, as does the historical `溢价高`.) -/
theorem C3_premium_rule (cost current_price current_premium h_price : ℚ)
    (lm pm hm ppm h_premium_val : Option ℚ) :
    (rtPremiumReason current_premium ∈ realtimeReasons cost current_price current_premium lm pm
        ↔ 1 ≤ current_premium)
      ∧ ("溢价高" ∈ histReasons cost h_price h_premium_val hm ppm
        ↔ ∃ v, h_premium_val = some v ∧ 1 ≤ v) := by
  constructor
  · constructor
    · intro hmem
      by_contra hc
      have hlen := rtPremiumReason_length_ge current_premium
      simp only [realtimeReasons, if_neg hc, List.nil_append, List.mem_append] at hmem
      have hne1 : rtPremiumReason current_premium ∉ (["低于M20"] : List String) := by
        intro h; simp only [List.mem_singleton] at h; rw [h] at hlen; revert hlen; decide
      have hne2 : rtPremiumReason current_premium ∉ (["M20未向上"] : List String) := by
        intro h; simp only [List.mem_singleton] at h; rw [h] at hlen; revert hlen; decide
      have hne3 : rtPremiumReason current_premium ∉ (["亏损超8%"] : List String) := by
        intro h; simp only [List.mem_singleton] at h; rw [h] at hlen; revert hlen; decide
      rcases hmem with (h | h) | h
      · revert h; split_ifs
        · simp
        · exact hne1
      · revert h; split_ifs
        · simp
        · exact hne2
      · revert h; split_ifs
        · exact hne3
        · simp
    · intro h
      simp [realtimeReasons, if_pos h, List.mem_append]
  · constructor
    · intro hmem
      simp only [histReasons, List.mem_append] at hmem
      rcases hmem with ((h | h) | h) | h
      · revert h; split_ifs with hpf
        · intro h
          cases hv : h_premium_val with
          | none => rw [hv] at hpf; exact absurd hpf (by simp [premFailsOpt])
          | some v =>
              refine ⟨v, rfl, ?_⟩
              rw [hv] at hpf
              simpa [premFailsOpt] using hpf
        · intro h; exact absurd h (by simp)
      · revert h; split_ifs
        · intro h; exact absurd h (by simp)
        · intro h; simp only [List.mem_singleton] at h; exact absurd h (by decide)
      · revert h; split_ifs
        · intro h; exact absurd h (by simp)
        · intro h; simp only [List.mem_singleton] at h; exact absurd h (by decide)
      · revert h; split_ifs
        · intro h; simp only [List.mem_singleton] at h; exact absurd h (by decide)
        · intro h; exact absurd h (by simp)
    · rintro ⟨v, rfl, hv⟩
      simp [histReasons, premFailsOpt, hv, List.mem_append]

/-- Witness for C3 at a concrete known premium of 2 percent. -/
theorem C3_premium_rule_witness :
    ("溢价高" ∈ histReasons 0 0 (some 2) none none) ↔ (∃ v, some (2:ℚ) = some v ∧ 1 ≤ v) :=
  (C3_premium_rule 0 0 0 0 none none none none (some 2)).2

/-- A one-entry NAV lookup table keyed by calendar date. -/
def navW : List (String × ℚ) := [("2024-01-12", 1)]

/-- A concrete historical bar dated at `navW`'s key. -/
def rowW : HistRow := { date := "2024-01-12", close := 2, m20 := none }

/-- `drawdownFails` as a proposition. -/
theorem drawdownFails_iff (cost price : ℚ) :
    drawdownFails cost price = true ↔ (0 < cost ∧ (price - cost) / cost * 100 ≤ -8) := by
  simp [drawdownFails]

/-- C4: a historical period's premium is computed from the NAV whose
calendar date exactly matches the period's date whenever that date is in
the lookup (with the resolver's positivity guard); with no exact match,
only index 0 falls back to the live valuation as reference, and every
older period reports its premium as unknown. -/
theorem C4_historical_premium_source (current_valuation : ℚ) (navMap : List (String × ℚ))
    (i : Nat) (row : HistRow) :
    (∀ nav : ℚ, navMap.lookup (pyFirstToken row.date) = some nav →
        h_premiumOf current_valuation navMap i row = resolve row.close nav)
      ∧ (navMap.lookup (pyFirstToken row.date) = none →
          (i = 0 → h_premiumOf current_valuation navMap i row = resolve row.close current_valuation)
          ∧ (i ≠ 0 → h_premiumOf current_valuation navMap i row = none)) := by
  unfold h_premiumOf resolve
  constructor
  · intro nav hl
    rw [hl]
  · intro hl
    rw [hl]
    constructor
    · intro hi
      subst hi
      by_cases hv : 0 < current_valuation <;> simp [hv]
    · intro hi
      simp [hi]

/-- Witness for C4 at a concrete NAV table with an exact date match. -/
theorem C4_historical_premium_source_witness :
    h_premiumOf 0 navW 3 rowW = resolve rowW.close 1 :=
  (C4_historical_premium_source 0 navW 3 rowW).1 1 (by with_unfolding_all decide)

/-- C5: the drawdown rule is active only for a strictly positive
`unitCost` and, when active, fails exactly when
`(price - cost)/cost*100 ≤ -8`; at `cost = 100` a price of 92 (exactly
-8.00 percent) fails while 93 (-7.00 percent) passes. -/
theorem C5_drawdown_rule (cost current_price current_premium h_price : ℚ)
    (lm pm hm ppm h_premium_val : Option ℚ) :
    ("亏损超8%" ∈ histReasons cost h_price h_premium_val hm ppm
        ↔ (0 < cost ∧ (h_price - cost) / cost * 100 ≤ -8))
      ∧ ("亏损超8%" ∈ realtimeReasons cost current_price current_premium lm pm
        ↔ (0 < cost ∧ (current_price - cost) / cost * 100 ≤ -8))
      ∧ drawdownFails 100 92 = true ∧ drawdownFails 100 93 = false := by
  refine ⟨⟨?_, ?_⟩, ⟨?_, ?_⟩, ?_, ?_⟩
  · intro hmem
    simp only [histReasons, List.mem_append] at hmem
    rcases hmem with ((h | h) | h) | h
    · revert h; split_ifs
      · intro h; simp only [List.mem_singleton] at h; exact absurd h (by decide)
      · intro h; exact absurd h (by simp)
    · revert h; split_ifs
      · intro h; exact absurd h (by simp)
      · intro h; simp only [List.mem_singleton] at h; exact absurd h (by decide)
    · revert h; split_ifs
      · intro h; exact absurd h (by simp)
      · intro h; simp only [List.mem_singleton] at h; exact absurd h (by decide)
    · revert h; split_ifs with hd
      · intro h; exact (drawdownFails_iff cost h_price).1 hd
      · intro h; exact absurd h (by simp)
  · intro hc
    have hd : drawdownFails cost h_price = true := (drawdownFails_iff cost h_price).2 hc
    simp [histReasons, hd, List.mem_append]
  · intro hmem
    have hlen := rtPremiumReason_length_ge current_premium
    simp only [realtimeReasons, List.mem_append] at hmem
    rcases hmem with ((h | h) | h) | h
    · revert h; split_ifs
      · intro h
        simp only [List.mem_singleton] at h
        rw [← h] at hlen
        exact absurd hlen (by decide)
      · intro h; exact absurd h (by simp)
    · revert h; split_ifs
      · intro h; exact absurd h (by simp)
      · intro h; simp only [List.mem_singleton] at h; exact absurd h (by decide)
    · revert h; split_ifs
      · intro h; exact absurd h (by simp)
      · intro h; simp only [List.mem_singleton] at h; exact absurd h (by decide)
    · revert h; split_ifs with hd
      · intro h; exact (drawdownFails_iff cost current_price).1 hd
      · intro h; exact absurd h (by simp)
  · intro hc
    have hd : drawdownFails cost current_price = true := (drawdownFails_iff cost current_price).2 hc
    simp [realtimeReasons, hd, List.mem_append]
  · with_unfolding_all decide
  · with_unfolding_all decide

/-- C6: a period's `m20Trending` flag is `否` whenever its own or the
previous period's M20 is undefined, and is `是` only when both are
defined and the current M20 strictly exceeds the previous one — for
historical records and for the realtime record alike. -/
theorem C6_m20_trending_definedness (cost current_valuation : ℚ) (navMap : List (String × ℚ))
    (i : Nat) (row prev_row : HistRow) (nowStr : String) (cp cpr : ℚ) (lm pm : Option ℚ) :
    ((row.m20 = none ∨ prev_row.m20 = none) →
        (histRow cost current_valuation navMap i row prev_row).m20up = "否")
      ∧ ((histRow cost current_valuation navMap i row prev_row).m20up = "是" →
          ∃ m p, row.m20 = some m ∧ prev_row.m20 = some p ∧ p < m)
      ∧ ((lm = none ∨ pm = none) → (realtimeRow cost nowStr cp cpr lm pm).m20up = "否")
      ∧ ((realtimeRow cost nowStr cp cpr lm pm).m20up = "是" →
          ∃ m p, lm = some m ∧ pm = some p ∧ p < m) := by
  refine ⟨?_, ?_, ?_, ?_⟩
  · intro h
    rcases h with h | h
    · simp [histRow, hist_m20_trending, truthyQ, h]
    · simp [histRow, hist_m20_trending, h]
  · intro h
    simp only [histRow] at h
    split_ifs at h with ht
    · unfold hist_m20_trending at ht
      split_ifs at ht with hcond
      · cases hm : row.m20 with
        | none => rw [hm] at hcond; simp [truthyQ] at hcond
        | some m =>
          cases hpm : prev_row.m20 with
          | none => rw [hpm] at hcond; simp at hcond
          | some p =>
            rw [hm, hpm] at ht
            simp only [fGt, decide_eq_true_eq] at ht
            exact ⟨m, p, rfl, rfl, ht⟩
    · exact absurd h (by decide)
  · intro h
    rcases h with h | h
    · simp [realtimeRow, fGt, h]
    · cases hl : lm with
      | none => simp [realtimeRow, fGt, hl]
      | some m => simp [realtimeRow, fGt, hl, h]
  · intro h
    simp only [realtimeRow] at h
    split_ifs at h with ht
    · cases hl : lm with
      | none => rw [hl] at ht; simp [fGt] at ht
      | some m =>
        cases hpm : pm with
        | none => rw [hl, hpm] at ht; simp [fGt] at ht
        | some p =>
          rw [hl, hpm] at ht
          simp only [fGt, decide_eq_true_eq] at ht
          exact ⟨m, p, rfl, rfl, ht⟩
    · exact absurd h (by decide)

/-- Witness for C6 at a record whose M20 is undefined. -/
theorem C6_m20_trending_definedness_witness :
    (histRow 0 0 [] 1 barOne barOne).m20up = "否" :=
  (C6_m20_trending_definedness 0 0 [] 1 barOne barOne "w" 0 0 none none).1 (Or.inl rfl)

/-- C8 counterexample: with live price 1 and live valuation 0 (not
strictly positive) the realtime record's premium is rendered as the
numeric `"0.000%"` — not as the unknown placeholder `"--"` the claim
requires. -/
theorem C8_counterexample :
    (((calculate_analysis 0 0 "t" 1 0 histW []).getD []).headD default).premium = "0.000%"
      ∧ "0.000%" ≠ "--" := by
  constructor
  · with_unfolding_all rfl
  · decide

/-- C8 (amended): historical premium resolution follows the resolver
contract — `(price - ref)/ref*100` when the matched reference is
strictly positive, unknown otherwise — but the realtime record's
premium is always rendered numerically: when the live valuation is not
strictly positive the sentinel 0 premium is shown as `"0.000%"`, never
as unknown. -/
theorem C8_amended_premium_resolution (cost qty price valuation : ℚ) (nowStr : String)
    (hist : List HistRow) (navMap : List (String × ℚ)) (i : Nat) (row : HistRow) (nav : ℚ)
    (hv : valuation ≤ 0) (hp : price ≠ 0) (hn : 2 ≤ hist.length) :
    (navMap.lookup (pyFirstToken row.date) = some nav →
        h_premiumOf valuation navMap i row = resolve row.close nav)
      ∧ (calculate_analysis cost qty nowStr price valuation hist navMap).map
          (fun l => (l.headD default).premium) = some "0.000%" := by
  constructor
  · intro hl
    unfold h_premiumOf resolve
    rw [hl]
  · unfold calculate_analysis
    have h0 : ¬ hist.length = 0 := by omega
    have h2 : ¬ hist.length < 2 := by omega
    have hnp : ¬ (get_realtime_data price valuation).1 = 0 := by
      simpa [get_realtime_data] using hp
    rw [if_neg hnp, if_neg h0, if_neg h2]
    have hprem : (get_realtime_data price valuation).2.1 = 0 := by
      show (if 0 < price ∧ 0 < valuation then (price - valuation) / valuation * 100 else 0) = 0
      rw [if_neg (fun hand => absurd hand.2 (not_lt.2 hv))]
    rw [hprem]
    show some (formatFixed 3 0 ++ "%") = some "0.000%"
    with_unfolding_all rfl

/-- Witness for C8 (amended) at a concrete call with zero valuation. -/
theorem C8_amended_premium_resolution_witness :
    (navW.lookup (pyFirstToken rowW.date) = some 1 →
        h_premiumOf 0 navW 5 rowW = resolve rowW.close 1)
      ∧ (calculate_analysis 0 0 "w" 1 0 histW navW).map
          (fun l => (l.headD default).premium) = some "0.000%" :=
  C8_amended_premium_resolution 0 0 1 0 "w" histW navW 5 rowW 1 le_rfl (by norm_num) (by decide)

/-- Witness for C5 at the documented boundary price. -/
theorem C5_drawdown_rule_witness : drawdownFails 100 92 = true :=
  (C5_drawdown_rule 100 0 0 0 none none none none none).2.2.1

/-- Witness for C9 (amended) at two concrete clock readings. -/
theorem C9_amended_deterministic_mod_clock_witness :
    (calculate_analysis 0 0 "A" 1 0 histW []).map (List.map stripRtLabel)
      = (calculate_analysis 0 0 "B" 1 0 histW []).map (List.map stripRtLabel) :=
  C9_amended_deterministic_mod_clock 0 0 1 0 "A" "B" histW []

/-- Witness for C10 at two concrete quantities. -/
theorem C10_quantity_irrelevant_witness :
    calculate_analysis 0 1 "w" 1 0 histW [] = calculate_analysis 0 2 "w" 1 0 histW [] :=
  C10_quantity_irrelevant 0 1 2 1 0 "w" histW []
